import Mathlib

/- Verification development for the mimosa repository.

   The numeric core lives in src/mimosa/composite.py (band normalization,
   the four normalized-difference index calculators, the RGB composite
   builder, the index visualizer and the preset registry) and the date
   discovery in src/mimosa/data.py.

   Modelling conventions:
   * numpy float32 arithmetic is modelled exactly over the rationals;
   * a 2D array (H, W) is modelled as its flattened pixel list, so the
     shape of an array is its length and elementwise numpy operations
     become zipWith / map over pixel lists;
   * an (H, W, 3) uint8 RGB image is a pixel list of Nat triples;
   * a Python dict of bands or masks is a function from the band
     identifier to Option of the stored array, and a failed dict lookup
     (Python KeyError, the specification's MissingBandError) is the
     keyError value of the PyError type;
   * numpy raises when the three channel shapes given to the composite
     builder differ (a broadcasting ValueError at the mask combine or at
     numpy.stack); this failure mode, which the specification names
     ShapeMismatchError, is the shapeError value of PyError;
   * the cast (x * 255).astype(numpy.uint8) truncates the float toward
     zero and wraps to 8 bits in two's complement, modelled by castUint8. -/

/-- A band array: flattened pixel list of float32 values, modelled over ℚ. -/
abbrev Band : Type := List ℚ

/-- A mask array: flattened pixel list of uint8 values; 255 means valid. -/
abbrev Mask : Type := List Nat

/-- A Python dict from band identifier to band array. -/
abbrev BandSet : Type := String → Option Band

/-- A Python dict from band identifier to mask array. -/
abbrev MaskSet : Type := String → Option Mask

/-- Failure modes of the compositing core: a dict lookup failure (Python
KeyError; the specification's MissingBandError or UnknownPresetError) and
the numpy shape failure raised when channel shapes differ (a ValueError;
the specification's ShapeMismatchError). -/
inductive PyError : Type where
  | keyError : String → PyError
  | shapeError : PyError
  deriving DecidableEq

/-- Python dict indexing d[key]: the stored value, or KeyError. -/
def dictGet {α : Type} (d : String → Option α) (key : String) : Except PyError α :=
  match d key with
  | some v => Except.ok v
  | none => Except.error (PyError.keyError key)

/-- Pointwise combination of three pixel lists (elementwise numpy op). -/
def zipWith3 {α β γ δ : Type} (f : α → β → γ → δ) : List α → List β → List γ → List δ
  | a :: as, b :: bs, c :: cs => f a b c :: zipWith3 f as bs cs
  | _, _, _ => []

/-- Pointwise combination of four pixel lists (elementwise numpy op). -/
def zipWith4 {α β γ δ ε : Type} (f : α → β → γ → δ → ε) :
    List α → List β → List γ → List δ → List ε
  | a :: as, b :: bs, c :: cs, d :: ds => f a b c d :: zipWith4 f as bs cs ds
  | _, _, _, _ => []

/-- Models numpy.percentile with the default linear interpolation method:
sort the samples, take position q / 100 * (n - 1) and interpolate linearly
between the two neighbouring sorted samples. -/
def percentile (xs : List ℚ) (q : ℚ) : ℚ :=
  let s := List.insertionSort (· ≤ ·) xs
  if s.length = 0 then 0
  else
    let pos : ℚ := q * ((s.length : ℚ) - 1) / 100
    let i : Nat := (⌊pos⌋).toNat
    let frac : ℚ := pos - ⌊pos⌋
    (1 - frac) * s.getD i 0 + frac * s.getD (min (i + 1) (s.length - 1)) 0

/-- Boolean mask selection band[mask == 255] used by normalize_band for the
percentile computation (composite.py lines 48-53); without a mask the whole
flattened band is used. -/
def validPixels (band : Band) (mask : Option Mask) : List ℚ :=
  match mask with
  | some m => (band.zip m).filterMap fun p => if p.2 = 255 then some p.1 else none
  | none => band

/-- Model of normalize_band (composite.py lines 25-73): percentile clip to
the pLowQ / pHighQ percentiles of the valid pixels (fallback bounds 0 and 1
when there are no valid pixels), rescale to the unit interval when the high
percentile exceeds the low one and otherwise output zeros, then force the
masked-invalid pixels to 0. The source's default percentile pair is (2, 98). -/
def normalize_band (band : Band) (mask : Option Mask) (pLowQ pHighQ : ℚ) : Band :=
  let vp := validPixels band mask
  let p_low : ℚ := if 0 < vp.length then percentile vp pLowQ else 0
  let p_high : ℚ := if 0 < vp.length then percentile vp pHighQ else 1
  let clipped := band.map fun x => min (max x p_low) p_high
  let normalized :=
    if p_low < p_high then clipped.map fun x => (x - p_low) / (p_high - p_low)
    else clipped.map fun _ => (0 : ℚ)
  match mask with
  | some m => List.zipWith (fun x v => if v = 255 then x else (0 : ℚ)) normalized m
  | none => normalized

/-- The five-entry preset table COMPOSITE_PRESETS (composite.py lines 8-14). -/
def COMPOSITE_PRESETS : String → Option (String × String × String) := fun name =>
  if name = "True Color" then some ("B04", "B03", "B02")
  else if name = "False Color" then some ("B08", "B04", "B03")
  else if name = "Highlight Optimized Natural Color" then some ("B04", "B03", "B02")
  else if name = "False Color Urban" then some ("B12", "B11", "B04")
  else if name = "SWIR" then some ("B12", "B8A", "B04")
  else none

/-- Model of get_composite_preset (composite.py lines 144-163): dict lookup,
raising KeyError (the specification's UnknownPresetError) for unknown names. -/
def get_composite_preset (name : String) : Except PyError (String × String × String) :=
  match COMPOSITE_PRESETS name with
  | some p => Except.ok p
  | none => Except.error (PyError.keyError name)

/-- Truncation of a rational toward zero, as a C float-to-integer cast does. -/
def ratTrunc (x : ℚ) : Int := if 0 ≤ x then ⌊x⌋ else ⌈x⌉

/-- Models the numpy float32 to uint8 cast .astype(numpy.uint8): truncate
toward zero, then wrap to 8 bits (two's complement low byte). -/
def castUint8 (x : ℚ) : Nat := ((ratTrunc x) % 256).toNat

/-- The cast behaviour the specification claims for out-of-range values:
clamping into the 8-bit range instead of wrapping. Spec-side definition,
used only to compare against the source's castUint8. -/
def specClampCast (x : ℚ) : Nat := min 255 (max 0 (ratTrunc x)).toNat

/-- Shared body of the four index calculators (composite.py lines 187-200,
224-237, 261-274 and 298-311, which are textually identical up to band
names): combined mask by the value-equals-255 test on both masks, zeros
array, assignment of (x - y) / (x + y) at the pixels that are valid with a
non-zero denominator, then re-assignment of 0 at the combined-mask-invalid
pixels. -/
def normDiffIndex (x y : Band) (mx my : Mask) : Band :=
  let combined := List.zipWith (fun a b => decide (a = 255) && decide (b = 255)) mx my
  let denominator := List.zipWith (fun a b : ℚ => a + b) x y
  let base : Band := List.replicate x.length 0
  let valid := List.zipWith (fun c (d : ℚ) => c && decide (d ≠ 0)) combined denominator
  let vals := zipWith3 (fun a b d : ℚ => (a - b) / d) x y denominator
  let step1 := zipWith3 (fun (o : ℚ) c (v : ℚ) => if c then v else o) base valid vals
  List.zipWith (fun (o : ℚ) c => if c then o else (0 : ℚ)) step1 combined

/-- Model of calculate_ndvi (composite.py lines 166-200): (B08 - B04) / (B08 + B04). -/
def calculate_ndvi (bands : BandSet) (masks : MaskSet) : Except PyError Band :=
  match bands "B08", bands "B04", masks "B08", masks "B04" with
  | some nir, some red, some m_nir, some m_red =>
      Except.ok (normDiffIndex nir red m_nir m_red)
  | none, _, _, _ => Except.error (PyError.keyError "B08")
  | some _, none, _, _ => Except.error (PyError.keyError "B04")
  | some _, some _, none, _ => Except.error (PyError.keyError "B08")
  | some _, some _, some _, none => Except.error (PyError.keyError "B04")

/-- Model of calculate_moisture_index (composite.py lines 203-237):
(B8A - B11) / (B8A + B11). -/
def calculate_moisture_index (bands : BandSet) (masks : MaskSet) : Except PyError Band :=
  match bands "B8A", bands "B11", masks "B8A", masks "B11" with
  | some nirn, some swir1, some m_nirn, some m_swir1 =>
      Except.ok (normDiffIndex nirn swir1 m_nirn m_swir1)
  | none, _, _, _ => Except.error (PyError.keyError "B8A")
  | some _, none, _, _ => Except.error (PyError.keyError "B11")
  | some _, some _, none, _ => Except.error (PyError.keyError "B8A")
  | some _, some _, some _, none => Except.error (PyError.keyError "B11")

/-- Model of calculate_ndwi (composite.py lines 240-274): (B03 - B08) / (B03 + B08). -/
def calculate_ndwi (bands : BandSet) (masks : MaskSet) : Except PyError Band :=
  match bands "B03", bands "B08", masks "B03", masks "B08" with
  | some green, some nir, some m_green, some m_nir =>
      Except.ok (normDiffIndex green nir m_green m_nir)
  | none, _, _, _ => Except.error (PyError.keyError "B03")
  | some _, none, _, _ => Except.error (PyError.keyError "B08")
  | some _, some _, none, _ => Except.error (PyError.keyError "B03")
  | some _, some _, some _, none => Except.error (PyError.keyError "B08")

/-- Model of calculate_ndsi (composite.py lines 277-311): (B03 - B11) / (B03 + B11). -/
def calculate_ndsi (bands : BandSet) (masks : MaskSet) : Except PyError Band :=
  match bands "B03", bands "B11", masks "B03", masks "B11" with
  | some green, some swir1, some m_green, some m_swir1 =>
      Except.ok (normDiffIndex green swir1 m_green m_swir1)
  | none, _, _, _ => Except.error (PyError.keyError "B03")
  | some _, none, _, _ => Except.error (PyError.keyError "B11")
  | some _, some _, none, _ => Except.error (PyError.keyError "B03")
  | some _, some _, some _, none => Except.error (PyError.keyError "B11")

/-- The compositing pipeline of create_rgb_composite on already extracted
arrays (composite.py lines 117-141): optional per-channel normalize_band
with the default (2, 98) clip, combined mask by the value-equals-255 test
on the three masks, channels scaled by 255 and cast to uint8, stacked into
pixel triples, and the combined-mask-invalid pixels set to black. -/
def rgbPixels (r_data g_data b_data : Band) (r_mask g_mask b_mask : Mask)
    (normalize : Bool) : List (Nat × Nat × Nat) :=
  let r_norm := if normalize then normalize_band r_data (some r_mask) 2 98 else r_data
  let g_norm := if normalize then normalize_band g_data (some g_mask) 2 98 else g_data
  let b_norm := if normalize then normalize_band b_data (some b_mask) 2 98 else b_data
  let combined := zipWith3
    (fun a b c : Nat => decide (a = 255) && decide (b = 255) && decide (c = 255))
    r_mask g_mask b_mask
  let r_u8 := r_norm.map fun x => castUint8 (x * 255)
  let g_u8 := g_norm.map fun x => castUint8 (x * 255)
  let b_u8 := b_norm.map fun x => castUint8 (x * 255)
  let rgb := zipWith3 (fun r g b : Nat => (r, g, b)) r_u8 g_u8 b_u8
  List.zipWith
    (fun (p : Nat × Nat × Nat) (c : Bool) => if c then p else (0, 0, 0)) rgb combined

/-- Model of create_rgb_composite (composite.py lines 76-141): extract the
three bands and masks (KeyError on a missing identifier) and run the
rgbPixels pipeline. When the three channel shapes differ, numpy raises a
ValueError (at the mask combine or at numpy.stack, lines 128 and 136),
modelled as the shapeError outcome; masks are assumed co-shaped with their
band, the repository's data-model invariant. -/
def create_rgb_composite (bands : BandSet) (masks : MaskSet)
    (r_band g_band b_band : String) (normalize : Bool) :
    Except PyError (List (Nat × Nat × Nat)) :=
  match bands r_band, bands g_band, bands b_band,
        masks r_band, masks g_band, masks b_band with
  | some r_data, some g_data, some b_data, some r_mask, some g_mask, some b_mask =>
    if r_data.length = g_data.length ∧ g_data.length = b_data.length then
      Except.ok (rgbPixels r_data g_data b_data r_mask g_mask b_mask normalize)
    else Except.error PyError.shapeError
  | none, _, _, _, _, _ => Except.error (PyError.keyError r_band)
  | some _, none, _, _, _, _ => Except.error (PyError.keyError g_band)
  | some _, some _, none, _, _, _ => Except.error (PyError.keyError b_band)
  | some _, some _, some _, none, _, _ => Except.error (PyError.keyError r_band)
  | some _, some _, some _, some _, none, _ => Except.error (PyError.keyError g_band)
  | some _, some _, some _, some _, some _, none => Except.error (PyError.keyError b_band)

/-- Model of create_index_visualization (composite.py lines 314-350): map
each index value v to normalized = clip((v + 1) / 2, 0, 1), red channel
(1 - normalized) * 255 cast to uint8, green channel normalized * 255 cast
to uint8, blue channel 0. The colormap argument is accepted but never
branched on, exactly as in the source. -/
def create_index_visualization (index_data : Band) (colormap : String) :
    List (Nat × Nat × Nat) :=
  index_data.map fun v =>
    let normalized := min (max ((v + 1) / 2) 0) 1
    (castUint8 ((1 - normalized) * 255), castUint8 (normalized * 255), 0)

/-- A directory entry seen by Path.iterdir: a name and whether it is a
directory. -/
structure DirEntry : Type where
  name : String
  isDir : Bool

/-- Gregorian leap-year test, as Python's datetime uses. -/
def isLeapYear (y : Nat) : Bool :=
  decide (y % 4 = 0) && (decide (y % 100 ≠ 0) || decide (y % 400 = 0))

/-- Number of days of month m in year y (Gregorian calendar). -/
def daysInMonth (y m : Nat) : Nat :=
  if m = 2 then (if isLeapYear y then 29 else 28)
  else if m = 4 ∨ m = 6 ∨ m = 9 ∨ m = 11 then 30
  else 31

/-- Splitting of a character list at every occurrence of a separator
character, as Python's str.split does on a one-character separator. -/
def splitOnChar (sep : Char) : List Char → List (List Char)
  | [] => [[]]
  | c :: rest =>
      let r := splitOnChar sep rest
      if c = sep then [] :: r
      else
        match r with
        | h :: t => (c :: h) :: t
        | [] => [[c]]

/-- Decimal parse of a character list: some value when it is a non-empty
run of digits, none otherwise (Python's int via strptime field parsing). -/
def digitsToNat (l : List Char) : Option Nat :=
  if l.isEmpty then none
  else
    l.foldl
      (fun acc c =>
        match acc with
        | some a => if c.isDigit then some (a * 10 + (c.toNat - 48)) else none
        | none => none)
      (some 0)

/-- Models CPython datetime.strptime on the %Y-%m-%d format with its exact
field widths: the character list must split on the dash into exactly three
decimal components, the year field exactly four digits (the %Y pattern is
four digits, and the year must be at least datetime.MINYEAR, which is 1),
the month and day fields one or two digits (the %m pattern is 1[0-2], 0[1-9]
or [1-9], exactly the one-or-two-digit runs of value 1 to 12, and the %d
pattern 3[01], [12] digit, 0[1-9] or [1-9], the one-or-two-digit runs of
value 1 to 31), with the day then validated against the Gregorian month
length by the datetime constructor. The parsed date is encoded as the
natural number y * 10000 + m * 100 + d, whose usual order coincides with
chronological order. Returns none where strptime raises ValueError. -/
def parseDateKey (cs : List Char) : Option Nat :=
  match splitOnChar (Char.ofNat 45) cs with
  | [ys, ms, ds] =>
    match digitsToNat ys, digitsToNat ms, digitsToNat ds with
    | some y, some m, some d =>
      if ys.length = 4 ∧ ms.length ≤ 2 ∧ ds.length ≤ 2
        ∧ 1 ≤ y ∧ 1 ≤ m ∧ m ≤ 12 ∧ 1 ≤ d ∧ d ≤ daysInMonth y m
      then some (y * 10000 + m * 100 + d) else none
    | _, _, _ => none
  | _ => none

/-- The product-type marker test of data.py line 27: the fixed marker
string occurs as a substring of the directory name (Python's in operator
on strings, modelled on the character lists). -/
def hasMarker (s : String) : Bool :=
  s.data.tails.any fun t => "Sentinel-2_L2A".data.isPrefixOf t

/-- Characters before the first occurrence of the separator list, or the
whole list when the separator never occurs. -/
def stemChars (sep : List Char) : List Char → List Char
  | [] => []
  | c :: rest => if sep.isPrefixOf (c :: rest) then [] else c :: stemChars sep rest

/-- The date portion of a directory name (data.py line 30): the prefix
before the first occurrence of the hour marker, or the whole name when the
marker is absent, exactly as Python's str.split()[0]. -/
def dateStem (s : String) : List Char := stemChars "-00_00".data s.data

/-- Model of discover_dates (data.py lines 11-34): keep the subdirectories
whose name bears the product-type marker, parse the date portion of each
kept name (none models the strptime ValueError escaping the function), and
sort the parsed dates ascending (Python's sorted; no deduplication in the
source). -/
def discover_dates (entries : List DirEntry) : Option (List Nat) :=
  let matching := entries.filter fun e => e.isDir && hasMarker e.name
  match matching.mapM fun e => parseDateKey (dateStem e.name) with
  | some dates => some (List.insertionSort (· ≤ ·) dates)
  | none => none

/-- Per-pixel index value exactly as the specification words it: 0 where
the combined mask is invalid or where the sum of the two band values is
exactly 0, and otherwise (a - b) / (a + b). Spec-side definition, to be
compared with the source-side normDiffIndex. -/
def specIndexPixel (a b : ℚ) (ma mb : Nat) : ℚ :=
  if ¬(ma = 255 ∧ mb = 255) ∨ a + b = 0 then 0 else (a - b) / (a + b)

/-- The specification's per-pixel index formula applied to whole arrays. -/
def specIndexArray (x y : Band) (mx my : Mask) : Band := zipWith4 specIndexPixel x y mx my

/-- Band set of the specification's NDVI example: constant NIR 0.8 and
constant Red 0.2. -/
def ndviExampleBands (n : Nat) : BandSet := fun k =>
  if k = "B08" then some (List.replicate n (4 / 5))
  else if k = "B04" then some (List.replicate n (1 / 5)) else none

/-- All-valid mask set: every band maps to an all-255 mask of length n. -/
def allValidMaskSet (n : Nat) : MaskSet := fun _ => some (List.replicate n 255)

/- List utility lemmas for the pixelwise reasoning. -/

theorem getD_zipWith {α β γ : Type} (f : α → β → γ) :
    ∀ (as : List α) (bs : List β) (i : Nat) (d : γ) (a0 : α) (b0 : β),
      i < as.length → i < bs.length →
      (List.zipWith f as bs).getD i d = f (as.getD i a0) (bs.getD i b0)
  | [], _, _, _, _, _, h, _ => absurd h (by simp)
  | _ :: _, [], _, _, _, _, _, h => absurd h (by simp)
  | _ :: _, _ :: _, 0, _, _, _, _, _ => rfl
  | _ :: as, _ :: bs, i + 1, d, a0, b0, h1, h2 => by
      simpa using getD_zipWith f as bs i d a0 b0 (by simpa using h1) (by simpa using h2)

theorem length_zipWith3 {α β γ δ : Type} (f : α → β → γ → δ) :
    ∀ (as : List α) (bs : List β) (cs : List γ),
      (zipWith3 f as bs cs).length = min as.length (min bs.length cs.length)
  | [], _, _ => by simp [zipWith3]
  | _ :: _, [], _ => by simp [zipWith3]
  | _ :: _, _ :: _, [] => by simp [zipWith3]
  | _ :: as, _ :: bs, _ :: cs => by
      simp [zipWith3, length_zipWith3 f as bs cs]
      omega

theorem getD_zipWith3 {α β γ δ : Type} (f : α → β → γ → δ) :
    ∀ (as : List α) (bs : List β) (cs : List γ) (i : Nat) (d : δ) (a0 : α) (b0 : β) (c0 : γ),
      i < as.length → i < bs.length → i < cs.length →
      (zipWith3 f as bs cs).getD i d = f (as.getD i a0) (bs.getD i b0) (cs.getD i c0)
  | [], _, _, _, _, _, _, _, h, _, _ => absurd h (by simp)
  | _ :: _, [], _, _, _, _, _, _, _, h, _ => absurd h (by simp)
  | _ :: _, _ :: _, [], _, _, _, _, _, _, _, h => absurd h (by simp)
  | _ :: _, _ :: _, _ :: _, 0, _, _, _, _, _, _, _ => rfl
  | _ :: as, _ :: bs, _ :: cs, i + 1, d, a0, b0, c0, h1, h2, h3 => by
      simpa [zipWith3] using getD_zipWith3 f as bs cs i d a0 b0 c0
        (by simpa using h1) (by simpa using h2) (by simpa using h3)

theorem length_zipWith4 {α β γ δ ε : Type} (f : α → β → γ → δ → ε) :
    ∀ (as : List α) (bs : List β) (cs : List γ) (ds : List δ),
      (zipWith4 f as bs cs ds).length =
        min as.length (min bs.length (min cs.length ds.length))
  | [], _, _, _ => by simp [zipWith4]
  | _ :: _, [], _, _ => by simp [zipWith4]
  | _ :: _, _ :: _, [], _ => by simp [zipWith4]
  | _ :: _, _ :: _, _ :: _, [] => by simp [zipWith4]
  | _ :: as, _ :: bs, _ :: cs, _ :: ds => by
      simp [zipWith4, length_zipWith4 f as bs cs ds]
      omega

theorem getD_zipWith4 {α β γ δ ε : Type} (f : α → β → γ → δ → ε) :
    ∀ (as : List α) (bs : List β) (cs : List γ) (ds : List δ) (i : Nat) (d : ε)
      (a0 : α) (b0 : β) (c0 : γ) (d0 : δ),
      i < as.length → i < bs.length → i < cs.length → i < ds.length →
      (zipWith4 f as bs cs ds).getD i d =
        f (as.getD i a0) (bs.getD i b0) (cs.getD i c0) (ds.getD i d0)
  | [], _, _, _, _, _, _, _, _, _, h, _, _, _ => absurd h (by simp)
  | _ :: _, [], _, _, _, _, _, _, _, _, _, h, _, _ => absurd h (by simp)
  | _ :: _, _ :: _, [], _, _, _, _, _, _, _, _, _, h, _ => absurd h (by simp)
  | _ :: _, _ :: _, _ :: _, [], _, _, _, _, _, _, _, _, _, h => absurd h (by simp)
  | _ :: _, _ :: _, _ :: _, _ :: _, 0, _, _, _, _, _, _, _, _, _ => rfl
  | _ :: as, _ :: bs, _ :: cs, _ :: ds, i + 1, d, a0, b0, c0, d0, h1, h2, h3, h4 => by
      simpa [zipWith4] using getD_zipWith4 f as bs cs ds i d a0 b0 c0 d0
        (by simpa using h1) (by simpa using h2) (by simpa using h3) (by simpa using h4)

theorem getD_map {α β : Type} (f : α → β) (l : List α) (i : Nat) (d : β) (d0 : α)
    (h : i < l.length) : (l.map f).getD i d = f (l.getD i d0) := by
  simp [List.getD_eq_getElem?_getD, List.getElem?_eq_getElem, h]

theorem getD_replicate {α : Type} (n : Nat) (a d : α) (i : Nat) (h : i < n) :
    (List.replicate n a).getD i d = a := by
  simp [List.getD_eq_getElem?_getD, List.getElem?_replicate, h]

theorem mem_zipWith_imp {α β γ : Type} {f : α → β → γ} {x : γ} :
    ∀ {as : List α} {bs : List β}, x ∈ List.zipWith f as bs →
      ∃ a b, a ∈ as ∧ b ∈ bs ∧ x = f a b
  | [], _, h => absurd h (by simp)
  | _ :: _, [], h => absurd h (by simp)
  | a :: as, b :: bs, h => by
      rcases (by simpa using h : x = f a b ∨ x ∈ List.zipWith f as bs) with h | h
      · exact ⟨a, b, by simp, by simp, h⟩
      · obtain ⟨a1, b1, ha, hb, hx⟩ := mem_zipWith_imp h
        exact ⟨a1, b1, by simp [ha], by simp [hb], hx⟩

theorem mem_zipWith3_imp {α β γ δ : Type} {f : α → β → γ → δ} {x : δ} :
    ∀ {as : List α} {bs : List β} {cs : List γ}, x ∈ zipWith3 f as bs cs →
      ∃ a b c, a ∈ as ∧ b ∈ bs ∧ c ∈ cs ∧ x = f a b c
  | [], _, _, h => absurd h (by simp [zipWith3])
  | _ :: _, [], _, h => absurd h (by simp [zipWith3])
  | _ :: _, _ :: _, [], h => absurd h (by simp [zipWith3])
  | a :: as, b :: bs, c :: cs, h => by
      rcases (by simpa [zipWith3] using h : x = f a b c ∨ x ∈ zipWith3 f as bs cs) with h | h
      · exact ⟨a, b, c, by simp, by simp, by simp, h⟩
      · obtain ⟨a1, b1, c1, ha, hb, hc, hx⟩ := mem_zipWith3_imp h
        exact ⟨a1, b1, c1, by simp [ha], by simp [hb], by simp [hc], hx⟩

/- The shared calculator body agrees with the specification's per-pixel formula. -/

theorem normDiffIndex_cons (a b : ℚ) (m n : Nat) (x y : Band) (mx my : Mask) :
    normDiffIndex (a :: x) (b :: y) (m :: mx) (n :: my) =
      specIndexPixel a b m n :: normDiffIndex x y mx my := by
  simp only [normDiffIndex, List.length_cons, List.replicate_succ, List.zipWith_cons_cons,
    zipWith3, List.cons.injEq]
  refine ⟨?_, trivial⟩
  by_cases hm : m = 255 <;> by_cases hn : n = 255 <;> by_cases hd : a + b = 0 <;>
    simp [specIndexPixel, hm, hn, hd, div_zero]

theorem normDiffIndex_eq_spec :
    ∀ (x y : Band) (mx my : Mask), x.length = y.length → x.length = mx.length →
      x.length = my.length → normDiffIndex x y mx my = specIndexArray x y mx my
  | [], y, mx, my, h1, h2, h3 => by
      obtain rfl : y = [] := List.length_eq_zero.mp h1.symm
      obtain rfl : mx = [] := List.length_eq_zero.mp h2.symm
      obtain rfl : my = [] := List.length_eq_zero.mp h3.symm
      rfl
  | a :: x, b :: y, m :: mx, n :: my, h1, h2, h3 => by
      rw [normDiffIndex_cons]
      exact congrArg (specIndexPixel a b m n :: ·)
        (normDiffIndex_eq_spec x y mx my (by simpa using h1) (by simpa using h2)
          (by simpa using h3))
  | _ :: _, [], _, _, h1, _, _ => absurd h1 (by simp)
  | _ :: _, _ :: _, [], _, _, h2, _ => absurd h2 (by simp)
  | _ :: _, _ :: _, _ :: _, [], _, _, h3 => absurd h3 (by simp)

theorem specIndexArray_replicate (n : Nat) (a b : ℚ) (u v : Nat) :
    specIndexArray (List.replicate n a) (List.replicate n b)
      (List.replicate n u) (List.replicate n v) =
      List.replicate n (specIndexPixel a b u v) := by
  induction n with
  | zero => rfl
  | succ k ih =>
      simp only [specIndexArray] at ih
      simp only [List.replicate_succ, specIndexArray, zipWith4]
      rw [ih]

theorem specIndexArray_getD (x y : Band) (mx my : Mask) (i : Nat)
    (h1 : i < x.length) (h2 : i < y.length) (h3 : i < mx.length) (h4 : i < my.length) :
    (specIndexArray x y mx my).getD i 0 =
      specIndexPixel (x.getD i 0) (y.getD i 0) (mx.getD i 0) (my.getD i 0) :=
  getD_zipWith4 specIndexPixel x y mx my i 0 0 0 0 0 h1 h2 h3 h4

/-- Concrete five-band set used by the witnesses. -/
def witnessBands : BandSet := fun k =>
  if k = "B08" then some [1]
  else if k = "B04" then some [0]
  else if k = "B8A" then some [2]
  else if k = "B03" then some [3]
  else if k = "B11" then some [4] else none

/-- C1: for every index calculator (NDVI, Moisture, NDWI, NDSI) and every
band set and mask set containing the two required bands (all arrays of one
length n), the computed array is exactly the specification's per-pixel
formula: 0 where the combined mask (pixel-wise AND of the two input masks
by the value-equals-255 test) is invalid or where the sum of the two band
values is exactly 0, and otherwise (a - b) / (a + b) of the two band
values; in particular NDVI of constant bands NIR 0.8 and Red 0.2 under an
all-valid mask is 0.6 at every pixel. -/
theorem index_calculators_pixelwise
    (bands : BandSet) (masks : MaskSet) (n : Nat)
    (nir red nirn green swir1 : Band) (mNir mRed mNirn mGreen mSwir1 : Mask)
    (hb08 : bands "B08" = some nir) (hb04 : bands "B04" = some red)
    (hb8a : bands "B8A" = some nirn) (hb03 : bands "B03" = some green)
    (hb11 : bands "B11" = some swir1)
    (hm08 : masks "B08" = some mNir) (hm04 : masks "B04" = some mRed)
    (hm8a : masks "B8A" = some mNirn) (hm03 : masks "B03" = some mGreen)
    (hm11 : masks "B11" = some mSwir1)
    (l1 : nir.length = n) (l2 : red.length = n) (l3 : nirn.length = n)
    (l4 : green.length = n) (l5 : swir1.length = n)
    (l6 : mNir.length = n) (l7 : mRed.length = n) (l8 : mNirn.length = n)
    (l9 : mGreen.length = n) (l10 : mSwir1.length = n) :
    calculate_ndvi bands masks = Except.ok (specIndexArray nir red mNir mRed)
    ∧ calculate_moisture_index bands masks =
        Except.ok (specIndexArray nirn swir1 mNirn mSwir1)
    ∧ calculate_ndwi bands masks = Except.ok (specIndexArray green nir mGreen mNir)
    ∧ calculate_ndsi bands masks = Except.ok (specIndexArray green swir1 mGreen mSwir1)
    ∧ (∀ i, i < n →
        (specIndexArray nir red mNir mRed).getD i 0 =
          specIndexPixel (nir.getD i 0) (red.getD i 0) (mNir.getD i 0) (mRed.getD i 0))
    ∧ (∀ k, calculate_ndvi (ndviExampleBands k) (allValidMaskSet k) =
        Except.ok (List.replicate k (3 / 5))) := by
  refine ⟨?_, ?_, ?_, ?_, ?_, ?_⟩
  · simp only [calculate_ndvi, hb08, hb04, hm08, hm04]
    exact congrArg Except.ok
      (normDiffIndex_eq_spec nir red mNir mRed (by omega) (by omega) (by omega))
  · simp only [calculate_moisture_index, hb8a, hb11, hm8a, hm11]
    exact congrArg Except.ok
      (normDiffIndex_eq_spec nirn swir1 mNirn mSwir1 (by omega) (by omega) (by omega))
  · simp only [calculate_ndwi, hb03, hb08, hm03, hm08]
    exact congrArg Except.ok
      (normDiffIndex_eq_spec green nir mGreen mNir (by omega) (by omega) (by omega))
  · simp only [calculate_ndsi, hb03, hb11, hm03, hm11]
    exact congrArg Except.ok
      (normDiffIndex_eq_spec green swir1 mGreen mSwir1 (by omega) (by omega) (by omega))
  · intro i hi
    exact specIndexArray_getD nir red mNir mRed i (by omega) (by omega) (by omega) (by omega)
  · intro k
    have hb : ndviExampleBands k "B08" = some (List.replicate k (4 / 5)) := rfl
    have hr : ndviExampleBands k "B04" = some (List.replicate k (1 / 5)) := rfl
    have hm : allValidMaskSet k "B08" = some (List.replicate k 255) := rfl
    have hm4 : allValidMaskSet k "B04" = some (List.replicate k 255) := rfl
    simp only [calculate_ndvi, hb, hr, hm, hm4]
    rw [normDiffIndex_eq_spec _ _ _ _ (by simp) (by simp) (by simp),
      specIndexArray_replicate]
    have : specIndexPixel (4 / 5) (1 / 5) 255 255 = 3 / 5 := by
      norm_num [specIndexPixel]
    rw [this]

/-- C1 witness: the hypotheses of index_calculators_pixelwise hold at a
concrete five-band input of length 1. -/
theorem index_calculators_pixelwise_witness :
    calculate_ndvi witnessBands (allValidMaskSet 1) =
      Except.ok (specIndexArray [1] [0] [255] [255]) ∧
    calculate_ndvi (ndviExampleBands 2) (allValidMaskSet 2) =
      Except.ok (List.replicate 2 (3 / 5)) := by
  have h := index_calculators_pixelwise witnessBands (allValidMaskSet 1) 1
    [1] [0] [2] [3] [4] [255] [255] [255] [255] [255]
    rfl rfl rfl rfl rfl rfl rfl rfl rfl rfl rfl rfl rfl rfl rfl rfl rfl rfl rfl rfl
  exact ⟨h.1, h.2.2.2.2.2 2⟩

/- Normalizer lemmas. -/

theorem getD_masked_zipWith (L : List ℚ) (m : Mask) (i : Nat)
    (hiL : i < L.length) (him : i < m.length) (h255 : m.getD i 0 ≠ 255) :
    (List.zipWith (fun x v => if v = 255 then x else (0 : ℚ)) L m).getD i 0 = 0 := by
  rw [getD_zipWith _ L m i 0 0 0 hiL him, if_neg h255]

theorem normalize_band_length (band : Band) (m : Mask) (pl ph : ℚ)
    (hlen : m.length = band.length) :
    (normalize_band band (some m) pl ph).length = band.length := by
  simp only [normalize_band, List.length_zipWith]
  split_ifs <;> simp [hlen]

theorem normalize_band_length_none (band : Band) (pl ph : ℚ) :
    (normalize_band band none pl ph).length = band.length := by
  simp only [normalize_band]
  split_ifs <;> simp

theorem normalize_band_bounds (band : Band) (mask : Option Mask) (pl ph : ℚ) :
    ∀ x ∈ normalize_band band mask pl ph, 0 ≤ x ∧ x ≤ 1 := by
  have core : ∀ (lo hi : ℚ) (l : List ℚ) (x : ℚ),
      x ∈ (if lo < hi then (l.map fun v => min (max v lo) hi).map
            (fun v => (v - lo) / (hi - lo))
           else (l.map fun v => min (max v lo) hi).map fun _ => (0 : ℚ)) →
      0 ≤ x ∧ x ≤ 1 := by
    intro lo hi l x hx
    split_ifs at hx with hlh
    · obtain ⟨v, hv, rfl⟩ := List.mem_map.mp hx
      obtain ⟨w, hw, rfl⟩ := List.mem_map.mp hv
      constructor
      · apply div_nonneg _ (by linarith)
        have : lo ≤ min (max w lo) hi := le_min (le_max_right w lo) (le_of_lt hlh)
        linarith
      · rw [div_le_one (by linarith)]
        have : min (max w lo) hi ≤ hi := min_le_right _ _
        linarith
    · obtain ⟨v, hv, rfl⟩ := List.mem_map.mp hx
      exact ⟨le_refl 0, zero_le_one⟩
  intro x hx
  cases mask with
  | none => exact core _ _ band x (by simpa [normalize_band] using hx)
  | some m =>
      simp only [normalize_band] at hx
      obtain ⟨a, v, ha, hv, rfl⟩ := mem_zipWith_imp hx
      by_cases h255 : v = 255
      · simpa [h255] using core _ _ band a ha
      · norm_num [h255]

theorem normalize_band_invalid_zero (band : Band) (m : Mask) (pl ph : ℚ)
    (hlen : m.length = band.length) (i : Nat) (hi : i < band.length)
    (h255 : m.getD i 0 ≠ 255) :
    (normalize_band band (some m) pl ph).getD i 0 = 0 := by
  simp only [normalize_band]
  apply getD_masked_zipWith _ m i ?_ (by omega) h255
  split_ifs <;> simpa using hi

/-- C2: for every band array and every optional mask of the same length,
normalize_band with the default (2, 98) percentile clip produces an output
of the same length (the model's notion of shape; the dtype, float32
modelled as ℚ, is preserved by construction), every output value lies in
the closed unit interval, and every pixel whose mask value is not 255 is
exactly 0 in the output. -/
theorem normalize_band_contract (band : Band) (mask : Option Mask)
    (hlen : ∀ m, mask = some m → m.length = band.length) :
    (normalize_band band mask 2 98).length = band.length
    ∧ (∀ x ∈ normalize_band band mask 2 98, 0 ≤ x ∧ x ≤ 1)
    ∧ (∀ m, mask = some m → ∀ i, i < band.length → m.getD i 0 ≠ 255 →
        (normalize_band band mask 2 98).getD i 0 = 0) := by
  refine ⟨?_, normalize_band_bounds band mask 2 98, ?_⟩
  · cases mask with
    | none => exact normalize_band_length_none band 2 98
    | some m => exact normalize_band_length band m 2 98 (hlen m rfl)
  · intro m hm i hi h255
    subst hm
    exact normalize_band_invalid_zero band m 2 98 (hlen m rfl) i hi h255

/-- C2 witness: at the band [1, 2] with mask [255, 7] the hypotheses hold;
pixel 1 carries the non-255 mask value 7 and normalizes to 0. -/
theorem normalize_band_contract_witness :
    (normalize_band [(1 : ℚ), 2] (some [255, 7]) 2 98).length = 2
    ∧ (normalize_band [(1 : ℚ), 2] (some [255, 7]) 2 98).getD 1 0 = 0 := by
  have h := normalize_band_contract [(1 : ℚ), 2] (some [255, 7])
    (by intro m hm; cases hm; rfl)
  exact ⟨h.1, h.2.2 [255, 7] rfl 1 (by norm_num) (by norm_num)⟩

/- Composite builder lemmas. -/

theorem castUint8_lt (x : ℚ) : castUint8 x < 256 := by
  unfold castUint8
  have h1 : (0 : Int) ≤ ratTrunc x % 256 := Int.emod_nonneg _ (by norm_num)
  have h2 : ratTrunc x % 256 < 256 := Int.emod_lt_of_pos _ (by norm_num)
  omega

theorem channel_length (d : Band) (m : Mask) (norm : Bool) (n : Nat)
    (hd : d.length = n) (hm : m.length = n) :
    (if norm then normalize_band d (some m) 2 98 else d).length = n := by
  cases norm with
  | false => simpa using hd
  | true => simpa using (normalize_band_length d m 2 98 (by omega)).trans hd

theorem rgbPixels_length (rD gD bD : Band) (rM gM bM : Mask) (norm : Bool) (n : Nat)
    (lr : rD.length = n) (lg : gD.length = n) (lb : bD.length = n)
    (lmr : rM.length = n) (lmg : gM.length = n) (lmb : bM.length = n) :
    (rgbPixels rD gD bD rM gM bM norm).length = n := by
  simp only [rgbPixels, List.length_zipWith, length_zipWith3, List.length_map,
    channel_length rD rM norm n lr lmr, channel_length gD gM norm n lg lmg,
    channel_length bD bM norm n lb lmb, lmr, lmg, lmb]
  omega

theorem rgbPixels_getD (rD gD bD : Band) (rM gM bM : Mask) (norm : Bool) (n : Nat)
    (lr : rD.length = n) (lg : gD.length = n) (lb : bD.length = n)
    (lmr : rM.length = n) (lmg : gM.length = n) (lmb : bM.length = n)
    (i : Nat) (hi : i < n) :
    (rgbPixels rD gD bD rM gM bM norm).getD i (0, 0, 0) =
      if rM.getD i 0 = 255 ∧ gM.getD i 0 = 255 ∧ bM.getD i 0 = 255 then
        (castUint8 ((if norm then normalize_band rD (some rM) 2 98 else rD).getD i 0 * 255),
         castUint8 ((if norm then normalize_band gD (some gM) 2 98 else gD).getD i 0 * 255),
         castUint8 ((if norm then normalize_band bD (some bM) 2 98 else bD).getD i 0 * 255))
      else (0, 0, 0) := by
  have hr := channel_length rD rM norm n lr lmr
  have hg := channel_length gD gM norm n lg lmg
  have hb := channel_length bD bM norm n lb lmb
  unfold rgbPixels
  rw [getD_zipWith _ _ _ i (0, 0, 0) (0, 0, 0) true
        (by simp [length_zipWith3, List.length_map, hr, hg, hb]; omega)
        (by simp [length_zipWith3, lmr, lmg, lmb]; omega),
      getD_zipWith3 (fun r g b : Nat => (r, g, b)) _ _ _ i (0, 0, 0) 0 0 0
        (by simp [List.length_map, hr]; omega) (by simp [List.length_map, hg]; omega)
        (by simp [List.length_map, hb]; omega),
      getD_zipWith3 _ rM gM bM i true 0 0 0 (by omega) (by omega) (by omega),
      getD_map _ _ i 0 0 (by omega), getD_map _ _ i 0 0 (by omega),
      getD_map _ _ i 0 0 (by omega)]
  beta_reduce
  have hbool : ((decide (rM.getD i 0 = 255) && decide (gM.getD i 0 = 255) &&
      decide (bM.getD i 0 = 255)) = true) ↔
      (rM.getD i 0 = 255 ∧ gM.getD i 0 = 255 ∧ bM.getD i 0 = 255) := by
    simp [and_assoc]
  by_cases h : rM.getD i 0 = 255 ∧ gM.getD i 0 = 255 ∧ bM.getD i 0 = 255
  · rw [if_pos (hbool.mpr h), if_pos h]
  · rw [if_neg (fun hc => h (hbool.mp hc)), if_neg h]

theorem rgbPixels_mem_uint8 (rD gD bD : Band) (rM gM bM : Mask) (norm : Bool) :
    ∀ p ∈ rgbPixels rD gD bD rM gM bM norm,
      p.1 < 256 ∧ p.2.1 < 256 ∧ p.2.2 < 256 := by
  intro p hp
  unfold rgbPixels at hp
  obtain ⟨q, c, hq, hc, rfl⟩ := mem_zipWith_imp hp
  cases c with
  | false => norm_num
  | true =>
      simp only [if_pos rfl]
      obtain ⟨a, b, d, ha, hb, hd, rfl⟩ := mem_zipWith3_imp hq
      obtain ⟨xa, hxa, rfl⟩ := List.mem_map.mp ha
      obtain ⟨xb, hxb, rfl⟩ := List.mem_map.mp hb
      obtain ⟨xd, hxd, rfl⟩ := List.mem_map.mp hd
      exact ⟨castUint8_lt _, castUint8_lt _, castUint8_lt _⟩

theorem create_rgb_composite_reduces (bands : BandSet) (masks : MaskSet)
    (kr kg kb : String) (norm : Bool) (rD gD bD : Band) (rM gM bM : Mask)
    (hbr : bands kr = some rD) (hbg : bands kg = some gD) (hbb : bands kb = some bD)
    (hmr : masks kr = some rM) (hmg : masks kg = some gM) (hmb : masks kb = some bM)
    (hlen : rD.length = gD.length ∧ gD.length = bD.length) :
    create_rgb_composite bands masks kr kg kb norm =
      Except.ok (rgbPixels rD gD bD rM gM bM norm) := by
  simp only [create_rgb_composite, hbr, hbg, hbb, hmr, hmg, hmb, if_pos hlen]

/- Percentile and degenerate-normalization lemmas. -/

theorem zipWith_replicate_same {α β γ : Type} (f : α → β → γ) (n : Nat) (a : α) (b : β) :
    List.zipWith f (List.replicate n a) (List.replicate n b) =
      List.replicate n (f a b) := by
  induction n with
  | zero => rfl
  | succ k ih => simp [List.replicate_succ, ih]

theorem validPixels_all_valid (c : ℚ) : ∀ n : Nat,
    validPixels (List.replicate n c) (some (List.replicate n 255)) = List.replicate n c
  | 0 => rfl
  | n + 1 => by
      have ih := validPixels_all_valid c n
      simp only [validPixels] at ih ⊢
      simp only [List.replicate_succ, List.zip_cons_cons, List.filterMap_cons]
      simp only [ih]
      simp

theorem validPixels_none_valid (band : Band) (m : Mask)
    (hall : ∀ v ∈ m, v ≠ 255) : validPixels band (some m) = [] := by
  simp only [validPixels]
  rw [List.filterMap_eq_nil_iff]
  intro p hp
  have hm : p.2 ∈ m := (List.of_mem_zip hp).2
  simp [hall _ hm]

theorem percentile_replicate (n : Nat) (c q : ℚ) (hq0 : 0 ≤ q) (hq1 : q ≤ 100)
    (hn : 0 < n) : percentile (List.replicate n c) q = c := by
  simp only [percentile]
  have hperm : List.Perm (List.insertionSort (· ≤ ·) (List.replicate n c))
      (List.replicate n c) := List.perm_insertionSort _ _
  have hlen : (List.insertionSort (· ≤ ·) (List.replicate n c)).length = n :=
    hperm.length_eq.trans (List.length_replicate _ _)
  have hget : ∀ j, j < n →
      (List.insertionSort (· ≤ ·) (List.replicate n c)).getD j 0 = c := by
    intro j hj
    have hjl : j < (List.insertionSort (· ≤ ·) (List.replicate n c)).length := by omega
    rw [List.getD_eq_getElem _ 0 hjl]
    exact List.eq_of_mem_replicate (hperm.subset (List.getElem_mem hjl))
  rw [hlen, if_neg (by omega)]
  have hpos0 : (0 : ℚ) ≤ q * ((n : ℚ) - 1) / 100 := by
    apply div_nonneg _ (by norm_num)
    apply mul_nonneg hq0
    have : (1 : ℚ) ≤ (n : ℚ) := by exact_mod_cast hn
    linarith
  have hposle : q * ((n : ℚ) - 1) / 100 ≤ (n : ℚ) - 1 := by
    rw [div_le_iff₀ (by norm_num : (0 : ℚ) < 100)]
    have h1 : (1 : ℚ) ≤ (n : ℚ) := by exact_mod_cast hn
    nlinarith
  have hfl : (⌊q * ((n : ℚ) - 1) / 100⌋).toNat < n := by
    have h1 : ⌊q * ((n : ℚ) - 1) / 100⌋ ≤ ⌊(n : ℚ) - 1⌋ := Int.floor_le_floor hposle
    have h2 : ⌊(n : ℚ) - 1⌋ = (n : Int) - 1 := by
      rw [show ((n : ℚ) - 1) = (((n : Int) - 1 : Int) : ℚ) by push_cast; ring,
        Int.floor_intCast]
    omega
  rw [hget _ hfl, hget _ (by omega)]
  ring

theorem normalize_band_const (c : ℚ) (nn : Nat) :
    normalize_band (List.replicate nn c) (some (List.replicate nn 255)) 2 98 =
      List.replicate nn 0 := by
  cases nn with
  | zero => rfl
  | succ k =>
      simp only [normalize_band, validPixels_all_valid c (k + 1), List.length_replicate,
        Nat.succ_pos, if_true]
      rw [percentile_replicate (k + 1) c 2 (by norm_num) (by norm_num) (by omega),
        percentile_replicate (k + 1) c 98 (by norm_num) (by norm_num) (by omega),
        if_neg (lt_irrefl c)]
      rw [List.map_const']
      simp only [List.length_map, List.length_replicate]
      rw [zipWith_replicate_same]
      simp

theorem normalize_band_all_invalid (band : Band) (m : Mask)
    (hlen : m.length = band.length) (hall : ∀ v ∈ m, v ≠ 255) :
    normalize_band band (some m) 2 98 = List.replicate band.length 0 := by
  refine List.eq_replicate_iff.mpr ⟨normalize_band_length band m 2 98 hlen, ?_⟩
  intro b hb
  simp only [normalize_band] at hb
  obtain ⟨x, v, hx, hv, rfl⟩ := mem_zipWith_imp hb
  simp [hall v hv]

theorem specIndexPixel_zero_denominator (a b : ℚ) (u v : Nat) (h : a + b = 0) :
    specIndexPixel a b u v = 0 := if_pos (Or.inr h)

/- Cast evaluation helpers. -/

theorem castUint8_of_intCast (z : Int) (hz : 0 ≤ z) :
    castUint8 ((z : ℚ)) = (z % 256).toNat := by
  unfold castUint8 ratTrunc
  rw [if_pos (by exact_mod_cast hz), Int.floor_intCast]

theorem castUint8_two255 : castUint8 ((2 : ℚ) * 255) = 254 := by
  rw [show ((2 : ℚ) * 255) = ((510 : Int) : ℚ) by norm_num,
    castUint8_of_intCast 510 (by norm_num)]
  decide

theorem castUint8_one255 : castUint8 ((1 : ℚ) * 255) = 255 := by
  rw [show ((1 : ℚ) * 255) = ((255 : Int) : ℚ) by norm_num,
    castUint8_of_intCast 255 (by norm_num)]
  decide

theorem castUint8_lit255 : castUint8 ((255 : ℚ)) = 255 := by
  rw [show ((255 : ℚ)) = ((255 : Int) : ℚ) by norm_num,
    castUint8_of_intCast 255 (by norm_num)]
  decide

theorem castUint8_lit0 : castUint8 ((0 : ℚ)) = 0 := by
  rw [show ((0 : ℚ)) = ((0 : Int) : ℚ) by norm_num,
    castUint8_of_intCast 0 (by norm_num)]
  decide

theorem castUint8_zero255 : castUint8 ((0 : ℚ) * 255) = 0 := by
  rw [show ((0 : ℚ) * 255) = ((0 : Int) : ℚ) by norm_num,
    castUint8_of_intCast 0 (by norm_num)]
  decide

theorem specClampCast_two255 : specClampCast ((2 : ℚ) * 255) = 255 := by
  rw [show ((2 : ℚ) * 255) = ((510 : Int) : ℚ) by norm_num]
  unfold specClampCast ratTrunc
  rw [if_pos (by norm_num : (0 : ℚ) ≤ ((510 : Int) : ℚ)), Int.floor_intCast]
  decide

/-- C4: for every band set and mask set containing the three requested band
identifiers (all arrays of one length n), build_rgb succeeds with an image
of length n whose channel values are 8-bit (each below 256; a length-n list
of triples is the model of an (H, W, 3) uint8 image); the combined mask is
the pixel-wise AND of the three channel masks by the value-equals-255 test:
every pixel at which it fails is forced to (0, 0, 0) in the output,
overriding any computed colour, and every combined-valid pixel keeps its
computed channel values. -/
theorem build_rgb_contract
    (bands : BandSet) (masks : MaskSet) (kr kg kb : String) (norm : Bool) (n : Nat)
    (rD gD bD : Band) (rM gM bM : Mask)
    (hbr : bands kr = some rD) (hbg : bands kg = some gD) (hbb : bands kb = some bD)
    (hmr : masks kr = some rM) (hmg : masks kg = some gM) (hmb : masks kb = some bM)
    (lr : rD.length = n) (lg : gD.length = n) (lb : bD.length = n)
    (lmr : rM.length = n) (lmg : gM.length = n) (lmb : bM.length = n)
    (out : List (Nat × Nat × Nat))
    (hout : create_rgb_composite bands masks kr kg kb norm = Except.ok out) :
    out.length = n
    ∧ (∀ p ∈ out, p.1 < 256 ∧ p.2.1 < 256 ∧ p.2.2 < 256)
    ∧ (∀ i, i < n → ¬(rM.getD i 0 = 255 ∧ gM.getD i 0 = 255 ∧ bM.getD i 0 = 255) →
        out.getD i (0, 0, 0) = (0, 0, 0))
    ∧ (∀ i, i < n → (rM.getD i 0 = 255 ∧ gM.getD i 0 = 255 ∧ bM.getD i 0 = 255) →
        out.getD i (0, 0, 0) =
          (castUint8 ((if norm then normalize_band rD (some rM) 2 98 else rD).getD i 0 * 255),
           castUint8 ((if norm then normalize_band gD (some gM) 2 98 else gD).getD i 0 * 255),
           castUint8 ((if norm then normalize_band bD (some bM) 2 98 else bD).getD i 0 * 255))) := by
  rw [create_rgb_composite_reduces bands masks kr kg kb norm rD gD bD rM gM bM
    hbr hbg hbb hmr hmg hmb ⟨by omega, by omega⟩] at hout
  have hx := Except.ok.inj hout
  subst hx
  refine ⟨rgbPixels_length rD gD bD rM gM bM norm n lr lg lb lmr lmg lmb,
    rgbPixels_mem_uint8 rD gD bD rM gM bM norm, ?_, ?_⟩
  · intro i hi hinv
    rw [rgbPixels_getD rD gD bD rM gM bM norm n lr lg lb lmr lmg lmb i hi, if_neg hinv]
  · intro i hi hval
    rw [rgbPixels_getD rD gD bD rM gM bM norm n lr lg lb lmr lmg lmb i hi, if_pos hval]

/-- C4 witness: the hypotheses of build_rgb_contract hold at a concrete
length-1 input with all-valid masks and normalization off. -/
theorem build_rgb_contract_witness :
    (rgbPixels [1] [0] [3] [255] [255] [255] false).length = 1
    ∧ (rgbPixels [1] [0] [3] [255] [255] [255] false).getD 0 (0, 0, 0) =
        (castUint8 ((1 : ℚ) * 255), castUint8 ((0 : ℚ) * 255), castUint8 ((3 : ℚ) * 255)) := by
  have h := build_rgb_contract witnessBands (allValidMaskSet 1) "B08" "B04" "B03" false 1
    [1] [0] [3] [255] [255] [255] rfl rfl rfl rfl rfl rfl rfl rfl rfl rfl rfl rfl
    (rgbPixels [1] [0] [3] [255] [255] [255] false) rfl
  refine ⟨h.1, ?_⟩
  have h4 := h.2.2.2 0 (by norm_num) (by decide)
  simpa using h4

/-- Band set with three entries of differing lengths, for the shape claims. -/
def mismatchBands : BandSet := fun k =>
  if k = "B08" then some [1]
  else if k = "B04" then some [0, 0]
  else if k = "B03" then some [3] else none

/-- C5: for every call to build_rgb where the three channel arrays do not
all share the same length, the operation fails with the shape error (in the
source this is the numpy ValueError raised at the mask combine or at
numpy.stack; the specification names this failure ShapeMismatchError). -/
theorem build_rgb_shape_mismatch
    (bands : BandSet) (masks : MaskSet) (kr kg kb : String) (norm : Bool)
    (rD gD bD : Band) (rM gM bM : Mask)
    (hbr : bands kr = some rD) (hbg : bands kg = some gD) (hbb : bands kb = some bD)
    (hmr : masks kr = some rM) (hmg : masks kg = some gM) (hmb : masks kb = some bM)
    (hne : ¬(rD.length = gD.length ∧ gD.length = bD.length)) :
    create_rgb_composite bands masks kr kg kb norm = Except.error PyError.shapeError := by
  simp only [create_rgb_composite, hbr, hbg, hbb, hmr, hmg, hmb, if_neg hne]

/-- C5 witness: a concrete call whose red channel has 1 pixel and whose
green channel has 2 pixels fails with the shape error. -/
theorem build_rgb_shape_mismatch_witness :
    create_rgb_composite mismatchBands (allValidMaskSet 1) "B08" "B04" "B03" true =
      Except.error PyError.shapeError :=
  build_rgb_shape_mismatch mismatchBands (allValidMaskSet 1) "B08" "B04" "B03" true
    [1] [0, 0] [3] [255] [255] [255] rfl rfl rfl rfl rfl rfl (by decide)

/-- Band set whose red channel carries the out-of-range value 2, for the
clamping claim. -/
def clampBands : BandSet := fun k =>
  if k = "B08" then some [2]
  else if k = "B04" then some [1]
  else if k = "B03" then some [0] else none

/-- C6 counterexample: with normalize false and a red-channel value of 2,
the multiply-by-255-and-cast step wraps: the output red channel is 254,
while the clamping cast the claim describes would give 255. The claim that
out-of-range values are clamped implicitly by the 0-255 cast is therefore
false of the code. -/
theorem build_rgb_no_clamp_counterexample :
    create_rgb_composite clampBands (allValidMaskSet 1) "B08" "B04" "B03" false =
      Except.ok [(254, 255, 0)]
    ∧ specClampCast ((2 : ℚ) * 255) = 255 ∧ (254 : Nat) ≠ 255 := by
  refine ⟨?_, specClampCast_two255, by decide⟩
  rw [create_rgb_composite_reduces clampBands (allValidMaskSet 1) "B08" "B04" "B03" false
    [2] [1] [0] [255] [255] [255] rfl rfl rfl rfl rfl rfl ⟨rfl, rfl⟩]
  congr 1
  simp [rgbPixels, zipWith3, castUint8_two255, castUint8_one255, castUint8_zero255,
    castUint8_lit255, castUint8_lit0]

/-- C6 amended: with normalize false, build_rgb uses the raw band values
directly; the multiply-by-255-and-cast-to-uint8 step truncates toward zero
and wraps modulo 256, so a value outside [0, 1] can produce an
overflow-wrapped channel value (2 wraps to 254 where a clamping cast would
give 255); keeping values in [0, 1] is the caller's responsibility. -/
theorem build_rgb_raw_values_wrap
    (bands : BandSet) (masks : MaskSet) (kr kg kb : String) (n : Nat)
    (rD gD bD : Band) (rM gM bM : Mask)
    (hbr : bands kr = some rD) (hbg : bands kg = some gD) (hbb : bands kb = some bD)
    (hmr : masks kr = some rM) (hmg : masks kg = some gM) (hmb : masks kb = some bM)
    (lr : rD.length = n) (lg : gD.length = n) (lb : bD.length = n)
    (lmr : rM.length = n) (lmg : gM.length = n) (lmb : bM.length = n)
    (out : List (Nat × Nat × Nat))
    (hout : create_rgb_composite bands masks kr kg kb false = Except.ok out) :
    (∀ i, i < n → rM.getD i 0 = 255 ∧ gM.getD i 0 = 255 ∧ bM.getD i 0 = 255 →
      out.getD i (0, 0, 0) =
        (castUint8 (rD.getD i 0 * 255), castUint8 (gD.getD i 0 * 255),
         castUint8 (bD.getD i 0 * 255)))
    ∧ castUint8 ((2 : ℚ) * 255) = 254 ∧ specClampCast ((2 : ℚ) * 255) = 255 := by
  rw [create_rgb_composite_reduces bands masks kr kg kb false rD gD bD rM gM bM
    hbr hbg hbb hmr hmg hmb ⟨by omega, by omega⟩] at hout
  have hx := Except.ok.inj hout
  subst hx
  refine ⟨?_, castUint8_two255, specClampCast_two255⟩
  intro i hi hval
  rw [rgbPixels_getD rD gD bD rM gM bM false n lr lg lb lmr lmg lmb i hi, if_pos hval]
  simp

/-- C6 amended witness: the hypotheses of build_rgb_raw_values_wrap hold at
the concrete input with red value 2, and the wrapped red channel is 254. -/
theorem build_rgb_raw_values_wrap_witness :
    (rgbPixels [2] [1] [0] [255] [255] [255] false).getD 0 (0, 0, 0) =
      (castUint8 ((2 : ℚ) * 255), castUint8 ((1 : ℚ) * 255), castUint8 ((0 : ℚ) * 255)) := by
  have h := build_rgb_raw_values_wrap clampBands (allValidMaskSet 1) "B08" "B04" "B03" 1
    [2] [1] [0] [255] [255] [255] rfl rfl rfl rfl rfl rfl rfl rfl rfl rfl rfl rfl
    (rgbPixels [2] [1] [0] [255] [255] [255] false) rfl
  simpa using h.1 0 (by norm_num) (by decide)

/-- C3: no core numeric function raises on numeric edge cases (in the model
every core function is a total Lean function); the edge cases have defined
fallback values: normalize_band of a constant band under an all-valid mask
is all zeros (never NaN or a division error), normalize_band with zero
valid pixels is defined and all zeros, every index calculator returns 0 at
a pixel whose denominator sum is exactly 0, build_rgb with an all-invalid
red-channel mask returns a defined all-black image, and the visualizer is
defined on every input. -/
theorem numeric_edge_cases_total
    (bands : BandSet) (masks : MaskSet) (n : Nat)
    (nir red nirn green swir1 : Band) (mNir mRed mNirn mGreen mSwir1 : Mask)
    (hb08 : bands "B08" = some nir) (hb04 : bands "B04" = some red)
    (hb8a : bands "B8A" = some nirn) (hb03 : bands "B03" = some green)
    (hb11 : bands "B11" = some swir1)
    (hm08 : masks "B08" = some mNir) (hm04 : masks "B04" = some mRed)
    (hm8a : masks "B8A" = some mNirn) (hm03 : masks "B03" = some mGreen)
    (hm11 : masks "B11" = some mSwir1)
    (l1 : nir.length = n) (l2 : red.length = n) (l3 : nirn.length = n)
    (l4 : green.length = n) (l5 : swir1.length = n)
    (l6 : mNir.length = n) (l7 : mRed.length = n) (l8 : mNirn.length = n)
    (l9 : mGreen.length = n) (l10 : mSwir1.length = n)
    (kr kg kb : String) (rD gD bD : Band) (rM gM bM : Mask) (norm : Bool)
    (hbr : bands kr = some rD) (hbg : bands kg = some gD) (hbb : bands kb = some bD)
    (hmr : masks kr = some rM) (hmg : masks kg = some gM) (hmb : masks kb = some bM)
    (lrr : rD.length = n) (lgg : gD.length = n) (lbb : bD.length = n)
    (lmr : rM.length = n) (lmg : gM.length = n) (lmb : bM.length = n) :
    (∀ (k : Nat) (c : ℚ),
        normalize_band (List.replicate k c) (some (List.replicate k 255)) 2 98 =
          List.replicate k 0)
    ∧ (∀ (band : Band) (m : Mask), m.length = band.length → (∀ v ∈ m, v ≠ 255) →
        normalize_band band (some m) 2 98 = List.replicate band.length 0)
    ∧ (∀ out, calculate_ndvi bands masks = Except.ok out → ∀ i, i < n →
        nir.getD i 0 + red.getD i 0 = 0 → out.getD i 0 = 0)
    ∧ (∀ out, calculate_moisture_index bands masks = Except.ok out → ∀ i, i < n →
        nirn.getD i 0 + swir1.getD i 0 = 0 → out.getD i 0 = 0)
    ∧ (∀ out, calculate_ndwi bands masks = Except.ok out → ∀ i, i < n →
        green.getD i 0 + nir.getD i 0 = 0 → out.getD i 0 = 0)
    ∧ (∀ out, calculate_ndsi bands masks = Except.ok out → ∀ i, i < n →
        green.getD i 0 + swir1.getD i 0 = 0 → out.getD i 0 = 0)
    ∧ (∀ out, create_rgb_composite bands masks kr kg kb norm = Except.ok out →
        (∀ i, i < n → rM.getD i 0 ≠ 255) → ∀ i, i < n →
        out.getD i (0, 0, 0) = (0, 0, 0))
    ∧ (∀ (idx : Band) (s : String),
        (create_index_visualization idx s).length = idx.length) := by
  refine ⟨fun k c => normalize_band_const c k,
    fun band m h1 h2 => normalize_band_all_invalid band m h1 h2, ?_, ?_, ?_, ?_, ?_, ?_⟩
  · intro out hout i hi hden
    simp only [calculate_ndvi, hb08, hb04, hm08, hm04] at hout
    have hx := Except.ok.inj hout
    subst hx
    rw [normDiffIndex_eq_spec nir red mNir mRed (l1.trans l2.symm) (l1.trans l6.symm)
        (l1.trans l7.symm),
      specIndexArray_getD nir red mNir mRed i (l1.symm ▸ hi) (l2.symm ▸ hi)
        (l6.symm ▸ hi) (l7.symm ▸ hi),
      specIndexPixel_zero_denominator (nir.getD i 0) (red.getD i 0) (mNir.getD i 0)
        (mRed.getD i 0) hden]
  · intro out hout i hi hden
    simp only [calculate_moisture_index, hb8a, hb11, hm8a, hm11] at hout
    have hx := Except.ok.inj hout
    subst hx
    rw [normDiffIndex_eq_spec nirn swir1 mNirn mSwir1 (l3.trans l5.symm) (l3.trans l8.symm)
        (l3.trans l10.symm),
      specIndexArray_getD nirn swir1 mNirn mSwir1 i (l3.symm ▸ hi) (l5.symm ▸ hi)
        (l8.symm ▸ hi) (l10.symm ▸ hi),
      specIndexPixel_zero_denominator (nirn.getD i 0) (swir1.getD i 0) (mNirn.getD i 0)
        (mSwir1.getD i 0) hden]
  · intro out hout i hi hden
    simp only [calculate_ndwi, hb03, hb08, hm03, hm08] at hout
    have hx := Except.ok.inj hout
    subst hx
    rw [normDiffIndex_eq_spec green nir mGreen mNir (l4.trans l1.symm) (l4.trans l9.symm)
        (l4.trans l6.symm),
      specIndexArray_getD green nir mGreen mNir i (l4.symm ▸ hi) (l1.symm ▸ hi)
        (l9.symm ▸ hi) (l6.symm ▸ hi),
      specIndexPixel_zero_denominator (green.getD i 0) (nir.getD i 0) (mGreen.getD i 0)
        (mNir.getD i 0) hden]
  · intro out hout i hi hden
    simp only [calculate_ndsi, hb03, hb11, hm03, hm11] at hout
    have hx := Except.ok.inj hout
    subst hx
    rw [normDiffIndex_eq_spec green swir1 mGreen mSwir1 (l4.trans l5.symm) (l4.trans l9.symm)
        (l4.trans l10.symm),
      specIndexArray_getD green swir1 mGreen mSwir1 i (l4.symm ▸ hi) (l5.symm ▸ hi)
        (l9.symm ▸ hi) (l10.symm ▸ hi),
      specIndexPixel_zero_denominator (green.getD i 0) (swir1.getD i 0) (mGreen.getD i 0)
        (mSwir1.getD i 0) hden]
  · intro out hout hallinv i hi
    rw [create_rgb_composite_reduces bands masks kr kg kb norm rD gD bD rM gM bM
      hbr hbg hbb hmr hmg hmb ⟨lrr.trans lgg.symm, lgg.trans lbb.symm⟩] at hout
    have hx := Except.ok.inj hout
    subst hx
    rw [rgbPixels_getD rD gD bD rM gM bM norm n lrr lgg lbb lmr lmg lmb i hi,
      if_neg (fun hand => hallinv i hi hand.1)]
  · intro idx s
    simp [create_index_visualization]

/-- C3 witness: the hypotheses of numeric_edge_cases_total hold at a
concrete length-1 input, and a constant band of value one half under an
all-valid mask normalizes to the all-zero band. -/
theorem numeric_edge_cases_total_witness :
    normalize_band (List.replicate 2 ((1 : ℚ) / 2)) (some (List.replicate 2 255)) 2 98 =
      List.replicate 2 0 := by
  have h := numeric_edge_cases_total witnessBands (allValidMaskSet 1) 1
    [1] [0] [2] [3] [4] [255] [255] [255] [255] [255]
    rfl rfl rfl rfl rfl rfl rfl rfl rfl rfl rfl rfl rfl rfl rfl rfl rfl rfl rfl rfl
    "B08" "B04" "B03" [1] [0] [3] [255] [255] [255] false
    rfl rfl rfl rfl rfl rfl rfl rfl rfl rfl rfl rfl
  exact h.1 2 (1 / 2)

/-- Mask set whose every entry is the single out-of-contract value 128. -/
def witnessMasks128 : MaskSet := fun _ => some [128]

/-- C10: every operation tests pixel validity by exact equality with 255,
so any mask value other than 255 (including out-of-contract values such as
1 or 128) is treated as invalid: at every such pixel normalize_band and
every index calculator produce 0, and build_rgb produces (0, 0, 0). -/
theorem mask_not_255_treated_invalid
    (band : Band) (m : Mask) (hm : m.length = band.length)
    (bands : BandSet) (masks : MaskSet) (n : Nat)
    (nir red nirn green swir1 : Band) (mNir mRed mNirn mGreen mSwir1 : Mask)
    (hb08 : bands "B08" = some nir) (hb04 : bands "B04" = some red)
    (hb8a : bands "B8A" = some nirn) (hb03 : bands "B03" = some green)
    (hb11 : bands "B11" = some swir1)
    (hm08 : masks "B08" = some mNir) (hm04 : masks "B04" = some mRed)
    (hm8a : masks "B8A" = some mNirn) (hm03 : masks "B03" = some mGreen)
    (hm11 : masks "B11" = some mSwir1)
    (l1 : nir.length = n) (l2 : red.length = n) (l3 : nirn.length = n)
    (l4 : green.length = n) (l5 : swir1.length = n)
    (l6 : mNir.length = n) (l7 : mRed.length = n) (l8 : mNirn.length = n)
    (l9 : mGreen.length = n) (l10 : mSwir1.length = n)
    (kr kg kb : String) (rD gD bD : Band) (rM gM bM : Mask) (norm : Bool)
    (hbr : bands kr = some rD) (hbg : bands kg = some gD) (hbb : bands kb = some bD)
    (hmr : masks kr = some rM) (hmg : masks kg = some gM) (hmb : masks kb = some bM)
    (lrr : rD.length = n) (lgg : gD.length = n) (lbb : bD.length = n)
    (lmr : rM.length = n) (lmg : gM.length = n) (lmb : bM.length = n) :
    (∀ i, i < band.length → m.getD i 0 ≠ 255 →
        (normalize_band band (some m) 2 98).getD i 0 = 0)
    ∧ (∀ out, calculate_ndvi bands masks = Except.ok out → ∀ i, i < n →
        (mNir.getD i 0 ≠ 255 ∨ mRed.getD i 0 ≠ 255) → out.getD i 0 = 0)
    ∧ (∀ out, calculate_moisture_index bands masks = Except.ok out → ∀ i, i < n →
        (mNirn.getD i 0 ≠ 255 ∨ mSwir1.getD i 0 ≠ 255) → out.getD i 0 = 0)
    ∧ (∀ out, calculate_ndwi bands masks = Except.ok out → ∀ i, i < n →
        (mGreen.getD i 0 ≠ 255 ∨ mNir.getD i 0 ≠ 255) → out.getD i 0 = 0)
    ∧ (∀ out, calculate_ndsi bands masks = Except.ok out → ∀ i, i < n →
        (mGreen.getD i 0 ≠ 255 ∨ mSwir1.getD i 0 ≠ 255) → out.getD i 0 = 0)
    ∧ (∀ out, create_rgb_composite bands masks kr kg kb norm = Except.ok out →
        ∀ i, i < n → (rM.getD i 0 ≠ 255 ∨ gM.getD i 0 ≠ 255 ∨ bM.getD i 0 ≠ 255) →
        out.getD i (0, 0, 0) = (0, 0, 0)) := by
  refine ⟨fun i hi h255 => normalize_band_invalid_zero band m 2 98 hm i hi h255,
    ?_, ?_, ?_, ?_, ?_⟩
  · intro out hout i hi hmask
    simp only [calculate_ndvi, hb08, hb04, hm08, hm04] at hout
    have hx := Except.ok.inj hout
    subst hx
    rw [normDiffIndex_eq_spec nir red mNir mRed (l1.trans l2.symm) (l1.trans l6.symm)
        (l1.trans l7.symm),
      specIndexArray_getD nir red mNir mRed i (l1.symm ▸ hi) (l2.symm ▸ hi)
        (l6.symm ▸ hi) (l7.symm ▸ hi),
      specIndexPixel, if_pos (Or.inl (by tauto))]
  · intro out hout i hi hmask
    simp only [calculate_moisture_index, hb8a, hb11, hm8a, hm11] at hout
    have hx := Except.ok.inj hout
    subst hx
    rw [normDiffIndex_eq_spec nirn swir1 mNirn mSwir1 (l3.trans l5.symm) (l3.trans l8.symm)
        (l3.trans l10.symm),
      specIndexArray_getD nirn swir1 mNirn mSwir1 i (l3.symm ▸ hi) (l5.symm ▸ hi)
        (l8.symm ▸ hi) (l10.symm ▸ hi),
      specIndexPixel, if_pos (Or.inl (by tauto))]
  · intro out hout i hi hmask
    simp only [calculate_ndwi, hb03, hb08, hm03, hm08] at hout
    have hx := Except.ok.inj hout
    subst hx
    rw [normDiffIndex_eq_spec green nir mGreen mNir (l4.trans l1.symm) (l4.trans l9.symm)
        (l4.trans l6.symm),
      specIndexArray_getD green nir mGreen mNir i (l4.symm ▸ hi) (l1.symm ▸ hi)
        (l9.symm ▸ hi) (l6.symm ▸ hi),
      specIndexPixel, if_pos (Or.inl (by tauto))]
  · intro out hout i hi hmask
    simp only [calculate_ndsi, hb03, hb11, hm03, hm11] at hout
    have hx := Except.ok.inj hout
    subst hx
    rw [normDiffIndex_eq_spec green swir1 mGreen mSwir1 (l4.trans l5.symm) (l4.trans l9.symm)
        (l4.trans l10.symm),
      specIndexArray_getD green swir1 mGreen mSwir1 i (l4.symm ▸ hi) (l5.symm ▸ hi)
        (l9.symm ▸ hi) (l10.symm ▸ hi),
      specIndexPixel, if_pos (Or.inl (by tauto))]
  · intro out hout i hi hmask
    rw [create_rgb_composite_reduces bands masks kr kg kb norm rD gD bD rM gM bM
      hbr hbg hbb hmr hmg hmb ⟨lrr.trans lgg.symm, lgg.trans lbb.symm⟩] at hout
    have hx := Except.ok.inj hout
    subst hx
    rw [rgbPixels_getD rD gD bD rM gM bM norm n lrr lgg lbb lmr lmg lmb i hi,
      if_neg (by tauto)]

/-- C10 witness: at the band [1] with mask [128], the normalized pixel and
the NDVI pixel are 0. -/
theorem mask_not_255_treated_invalid_witness :
    (normalize_band [(1 : ℚ)] (some [128]) 2 98).getD 0 0 = 0
    ∧ (normDiffIndex [1] [0] [128] [128]).getD 0 0 = 0 := by
  have h := mask_not_255_treated_invalid [(1 : ℚ)] [128] rfl
    witnessBands witnessMasks128 1
    [1] [0] [2] [3] [4] [128] [128] [128] [128] [128]
    rfl rfl rfl rfl rfl rfl rfl rfl rfl rfl rfl rfl rfl rfl rfl rfl rfl rfl rfl rfl
    "B08" "B04" "B03" [1] [0] [3] [128] [128] [128] false
    rfl rfl rfl rfl rfl rfl rfl rfl rfl rfl rfl rfl
  exact ⟨h.1 0 (by decide) (by decide),
    h.2.1 (normDiffIndex [1] [0] [128] [128]) rfl 0 (by decide) (Or.inl (by decide))⟩

/-- C7 counterexample: two distinct directory names bearing the marker and
the same calendar date make discover_dates return that date twice, so the
result of the scanner is not duplicate-free as the claim states. -/
theorem discover_dates_duplicates_counterexample :
    discover_dates [⟨"2024-01-02-00_00_2024-01-02-00_00_Sentinel-2_L2A", true⟩,
      ⟨"2024-01-02-00_00_B_Sentinel-2_L2A", true⟩] = some [20240102, 20240102]
    ∧ ¬ ([20240102, 20240102] : List Nat).Nodup :=
  ⟨by decide, by decide⟩

/-- C7 amended: for every root path whose marker-bearing subdirectory
names all parse (otherwise strptime raises), the scanner returns the
ascending sorted list of the dates extracted from those names, one entry
per matching subdirectory — so the list is sorted but a date borne by
several subdirectories appears several times (the source never
deduplicates). -/
theorem discover_dates_sorted (entries : List DirEntry) (dates : List Nat)
    (hp : (entries.filter fun e => e.isDir && hasMarker e.name).mapM
        (fun e => parseDateKey (dateStem e.name)) = some dates) :
    discover_dates entries = some (List.insertionSort (· ≤ ·) dates)
    ∧ List.Sorted (· ≤ ·) (List.insertionSort (· ≤ ·) dates)
    ∧ List.Perm (List.insertionSort (· ≤ ·) dates) dates := by
  refine ⟨?_, List.sorted_insertionSort _ _, List.perm_insertionSort _ _⟩
  simp only [discover_dates, hp]

/-- C7 amended witness: the parse hypothesis holds at the two-directory
input of the counterexample. -/
theorem discover_dates_sorted_witness :
    discover_dates [⟨"2024-01-02-00_00_2024-01-02-00_00_Sentinel-2_L2A", true⟩,
      ⟨"2024-01-02-00_00_B_Sentinel-2_L2A", true⟩] =
      some (List.insertionSort (· ≤ ·) [20240102, 20240102]) :=
  (discover_dates_sorted _ [20240102, 20240102] (by decide)).1

/- Visualizer evaluation helpers. -/

theorem castUint8_half255 : castUint8 ((255 : ℚ) / 2) = 127 := by
  unfold castUint8 ratTrunc
  rw [if_pos (by norm_num : (0 : ℚ) ≤ 255 / 2),
    show ⌊(255 : ℚ) / 2⌋ = 127 by norm_num]
  decide

/-- C8: visualize maps each index value v through normalized equal to
clip((v + 1) / 2, 0, 1); the red channel is (1 - normalized) * 255
truncated to 8-bit unsigned, the green channel normalized * 255 truncated,
and the blue channel always 0; hence the value -1 maps to (255, 0, 0), the
value 0 to the mid-gradient (127, 127, 0) (truncation rounds 127.5 down),
the value 1 to (0, 255, 0), and the output has the length of the input
with pixel triples as the trailing dimension of 3. -/
theorem visualize_gradient (idx : Band) (i : Nat) (hi : i < idx.length) :
    (create_index_visualization idx "RdYlGn").length = idx.length
    ∧ (create_index_visualization idx "RdYlGn").getD i (0, 0, 0) =
        (castUint8 ((1 - min (max ((idx.getD i 0 + 1) / 2) 0) 1) * 255),
         castUint8 (min (max ((idx.getD i 0 + 1) / 2) 0) 1 * 255), 0)
    ∧ create_index_visualization [(-1 : ℚ), 0, 1] "RdYlGn" =
        [(255, 0, 0), (127, 127, 0), (0, 255, 0)] := by
  refine ⟨by simp [create_index_visualization], ?_, ?_⟩
  · simp only [create_index_visualization]
    rw [getD_map _ idx i (0, 0, 0) 0 hi]
  · simp only [create_index_visualization, List.map_cons, List.map_nil]
    norm_num [min_def, max_def, castUint8_lit255, castUint8_lit0, castUint8_half255]

/-- C8 witness: the index bound of visualize_gradient holds at the
concrete three-pixel index array of the claim. -/
theorem visualize_gradient_witness :
    create_index_visualization [(-1 : ℚ), 0, 1] "RdYlGn" =
      [(255, 0, 0), (127, 127, 0), (0, 255, 0)] :=
  (visualize_gradient [(-1 : ℚ), 0, 1] 0 (by norm_num)).2.2

/-- C9: preset registry lookup of True Color returns the band triple
(B04, B03, B02), and lookup of any name outside the five-entry registry
fails with the lookup error (Python KeyError; the specification's
UnknownPresetError). -/
theorem preset_registry_lookup (name : String)
    (habs : name ∉ ["True Color", "False Color", "Highlight Optimized Natural Color",
      "False Color Urban", "SWIR"]) :
    get_composite_preset "True Color" = Except.ok ("B04", "B03", "B02")
    ∧ get_composite_preset name = Except.error (PyError.keyError name) := by
  constructor
  · rfl
  · simp only [List.mem_cons, List.not_mem_nil, or_false] at habs
    push_neg at habs
    obtain ⟨h1, h2, h3, h4, h5⟩ := habs
    simp [get_composite_preset, COMPOSITE_PRESETS, h1, h2, h3, h4, h5]

/-- C9 witness: the name Invalid Preset is outside the registry and its
lookup fails with the lookup error carrying that name. -/
theorem preset_registry_lookup_witness :
    get_composite_preset "Invalid Preset" =
      Except.error (PyError.keyError "Invalid Preset") :=
  (preset_registry_lookup "Invalid Preset" (by decide)).2
